import Mathlib

/-!
Verification development for the CyberShield front-end client
(`src/script.js`).  The script is a browser event handler layer over
three REST calls; we embed it as a pure state machine.  Browser state
(the two `sessionStorage` keys, the set of visible `.view` elements, the
welcome banner, the `alert` log, the scan-result `innerHTML`, and the
URL input field) is a `ClientState` record; each network-touching
handler takes the outcome of its `fetch`/`response.json()` sequence as
an explicit `NetResult` argument.  JavaScript dynamic values that the
script stores into `sessionStorage` are modelled by `JsValue` together
with JavaScript string coercion (`jsToString`), and JavaScript string
truthiness of a `sessionStorage.getItem` result by `sessionTruthy`.
-/

/-- A JavaScript value as it can occur in a parsed JSON response field:
absent/`undefined`, a string, or a number (we only need integers). -/
inductive JsValue where
  | undef
  | str (s : String)
  | num (n : Int)
deriving DecidableEq

/-- JavaScript string coercion, as applied by `sessionStorage.setItem` to
its second argument: `undefined` becomes the string `"undefined"`. -/
def jsToString : JsValue → String
  | .undef => "undefined"
  | .str s => s
  | .num n => toString n

/-- The client-side browser state owned by `script.js`:
`sessionStorage` keys `currentUserId` / `currentUserEmail` (`none` =
key absent, mirroring `getItem` returning `null`), the list of view
element ids currently shown (`display: block`), the text of the
`welcome-message` element, the log of `alert` messages (appended in
order), the `innerHTML` of the `url-scan-result` div, and the value of
the `url-input` field. -/
structure ClientState where
  userId : Option String
  userEmail : Option String
  visible : List String
  welcome : Option String
  alerts : List String
  scanResultHtml : Option String
  urlInput : String
deriving DecidableEq

/-- `alert(m)`: appends to the log of user notifications. -/
def addAlert (s : ClientState) (m : String) : ClientState :=
  { s with alerts := s.alerts ++ [m] }

/-- Modelled from the spec: the fixed set of view element ids.  The
`.view` elements live in the repository's HTML page, which is not under
`src/`; the spec fixes the view set as home, login, registration and
dashboard (the exact ids `script.js` navigates to). -/
def viewIds : List String :=
  ["home-view", "login-view", "registration-view", "dashboard-view"]

/-- JavaScript truthiness of a `sessionStorage.getItem` result:
`null` (key absent) and the empty string are falsy. -/
def sessionTruthy : Option String → Bool
  | none => false
  | some v => v != ""

/-- `showView(viewId)` (script.js lines 7-27): hides every `.view`
element, shows the element with id `viewId` when it exists, and for the
dashboard additionally refreshes the welcome banner from
`currentUserEmail` when that is truthy. -/
def showView (viewId : String) (s : ClientState) : ClientState :=
  let s1 := { s with visible := if viewIds.contains viewId then [viewId] else [] }
  if viewId = "dashboard-view" then
    match s1.userEmail with
    | some e => if e != "" then { s1 with welcome := some ("Welcome, " ++ e) } else s1
    | none => s1
  else s1

/-- `goToDashboard()` (lines 31-38): dashboard when
`sessionStorage.getItem('currentUserId')` is truthy, else login. -/
def goToDashboard (s : ClientState) : ClientState :=
  if sessionTruthy s.userId then showView "dashboard-view" s
  else showView "login-view" s

/-- `handleSignOut()` (lines 40-45): remove both session keys, alert,
show home. -/
def handleSignOut (s : ClientState) : ClientState :=
  let s1 := { s with userId := none, userEmail := none }
  showView "home-view" (addAlert s1 "You have been signed out.")

/-- Outcome of one `fetch` + `await response.json()` sequence inside a
handler's `try` block: the fetch promise rejected (`noResponse`), a
response arrived but its body was not parseable JSON (`badJson`, with
the response's `ok` flag), or a response arrived with a parsed JSON
body (`response`, with `ok` = HTTP 2xx). -/
inductive NetResult (β : Type) where
  | noResponse
  | badJson (ok : Bool)
  | response (ok : Bool) (body : β)
deriving DecidableEq

/-- Whether the handler obtained an HTTP response at all. -/
def responseObtained {β : Type} : NetResult β → Bool
  | .noResponse => false
  | _ => true

/-- JavaScript `x || dflt` for an optional string field `x` of a parsed
JSON body: the field's value when present and truthy (non-empty),
otherwise the fallback. -/
def orElseStr (v : Option String) (dflt : String) : String :=
  match v with
  | some s => if s = "" then dflt else s
  | none => dflt

/-- Parsed JSON body of a `/register` response; only its optional
`detail` field is ever read. -/
structure RegBody where
  detail : Option String
deriving DecidableEq

/-- Parsed JSON body of a `/login` response: the `id` and `email`
fields (`JsValue.undef` when absent from the JSON object) and the
optional error `detail`. -/
structure LoginBody where
  id : JsValue
  email : JsValue
  detail : Option String
deriving DecidableEq

/-- Registration form fields (lines 56-74). -/
structure RegForm where
  scope : String
  email : String
  first_name : String
  last_name : String
  mobile : String
  company_name : String
  company_website : String
  phone : String
deriving DecidableEq

/-- The `userData` request body built by `handleRegistration`
(lines 60-74), as an association list of JSON fields. -/
def buildUserData (f : RegForm) : List (String × String) :=
  [("scope", f.scope), ("email", f.email)] ++
    (if f.scope = "individual" then
      [("first_name", f.first_name), ("last_name", f.last_name), ("mobile", f.mobile)]
    else if f.scope = "enterprise" then
      [("company_name", f.company_name), ("company_website", f.company_website),
        ("phone", f.phone)]
    else [])

def regConnMsg : String :=
  "Could not connect to the backend server. Check the API URL and network connection."

def regSuccessMsg : String :=
  "Registration successful! Please sign in with your email."

def regFailMsg (detail : Option String) : String :=
  "Registration failed: " ++ orElseStr detail "An unknown error occurred."

/-- `handleRegistration(event)` (lines 50-99).  The request body
(`buildUserData`) does not affect client state; the state transition
depends only on the network outcome. -/
def handleRegistration (net : NetResult RegBody) (s : ClientState) : ClientState :=
  match net with
  | .noResponse => addAlert s regConnMsg
  | .badJson _ => addAlert s regConnMsg
  | .response ok body =>
    if ok then showView "login-view" (addAlert s regSuccessMsg)
    else addAlert s (regFailMsg body.detail)

def loginConnMsg : String :=
  "Could not connect to the backend server. Check network connection."

def loginSuccessMsg : String := "Login successful!"

def loginFailMsg (detail : Option String) : String :=
  "Login failed: " ++ orElseStr detail "Invalid email or user not found."

/-- `handleLogin(event)` (lines 104-134).  On 2xx: alert, store the
coerced `result.id` / `result.email` under the two session keys, then
`goToDashboard()`.  On non-2xx: alert with `result.detail` or the
generic fallback.  A rejected fetch or unparseable body lands in the
`catch` block. -/
def handleLogin (net : NetResult LoginBody) (s : ClientState) : ClientState :=
  match net with
  | .noResponse => addAlert s loginConnMsg
  | .badJson _ => addAlert s loginConnMsg
  | .response ok body =>
    if ok then
      let s1 := addAlert s loginSuccessMsg
      let s2 := { s1 with
        userId := some (jsToString body.id),
        userEmail := some (jsToString body.email) }
      goToDashboard s2
    else addAlert s (loginFailMsg body.detail)

def scanConnMsg : String :=
  "<p class=\"text-danger\">Failed to connect to API for scan.</p>"

def scanFailMsg (detail : Option String) : String :=
  "<p class=\"text-danger\">Scan failed: " ++ orElseStr detail "Server error." ++ "</p>"

def scanningMsg : String :=
  "<p class=\"text-warning\">Scanning... This may take a moment.</p>"

/-- JavaScript `String.prototype.includes`: some tail of `s` starts
with `sub`. -/
def strIncludes (s sub : String) : Bool :=
  s.data.tails.any (fun t => sub.data.isPrefixOf t)

/-- The status class chosen by `displayScanResult` (lines 190-196) from
the `overall_summary` string. -/
def statusClassOf (summary : String) : String :=
  if strIncludes summary "DANGER" then "text-danger"
  else if strIncludes summary "WARNING" then "text-warning"
  else "text-success"

/-- The `virustotal` sub-object of a scan response's `details`. -/
structure VTResult where
  status : String
  malicious_count : Int
  harmless_count : Int
  results_url : String
deriving DecidableEq

/-- The `google_safe_browsing` sub-object of a scan response's
`details`. -/
structure GSBResult where
  status : String
  message : String
deriving DecidableEq

/-- The `details` object of a scan response; each sub-section is
rendered only when present (truthy). -/
structure ScanDetails where
  virustotal : Option VTResult
  google_safe_browsing : Option GSBResult
deriving DecidableEq

/-- Parsed JSON body of a `/scan` response.  `overall_summary` and
`details` are optional because a JSON object need not carry them;
`displayScanResult` dereferences both unconditionally.  `detail` is the
error field read on non-2xx. -/
structure ScanBody where
  url : String
  overall_summary : Option String
  details : Option ScanDetails
  detail : Option String
deriving DecidableEq

/-- VirusTotal section of `detailsHtml` (lines 201-212). -/
def vtHtml : Option VTResult → String
  | none => ""
  | some vt =>
    "<p><strong>VirusTotal Summary:</strong></p><ul><li>Status: " ++ vt.status ++
      "</li><li>Malicious Flags: <span class=\"" ++
      (if vt.malicious_count > 0 then "text-danger" else "text-success") ++ "\">" ++
      toString vt.malicious_count ++ "</span></li><li>Harmless Checks: " ++
      toString vt.harmless_count ++ "</li><li><a href=\"" ++ vt.results_url ++
      "\" target=\"_blank\">View Full VT Report</a></li></ul>"

/-- Google Safe Browsing section of `detailsHtml` (lines 215-224). -/
def gsbHtml : Option GSBResult → String
  | none => ""
  | some gsb =>
    "<p><strong>Google Safe Browsing:</strong></p><ul><li>Status: <span class=\"" ++
      (if gsb.status = "SAFE" then "text-success" else "text-danger") ++ "\">" ++
      gsb.status ++ "</span></li><li>Message: " ++ gsb.message ++ "</li></ul>"

/-- `displayScanResult(data, targetElement)` (lines 186-235) as a pure
function from the parsed body and the render-time clock string to the
produced `innerHTML`.  Dereferencing a missing `overall_summary`
(`undefined.includes`) or a missing `details` throws, modelled as
`none`; the throw propagates to the caller's `catch`.  The summary is
dereferenced first, exactly as in the source. -/
def displayScanResult (data : ScanBody) (now : String) : Option String :=
  match data.overall_summary with
  | none => none
  | some summ =>
    match data.details with
    | none => none
    | some det =>
      let detailsHtml := vtHtml det.virustotal ++ gsbHtml det.google_safe_browsing
      some ("\n        <h4 class=\"" ++ statusClassOf summ ++ "\">Scan Result for: " ++
        data.url ++ "</h4>\n        <p class=\"h5 " ++ statusClassOf summ ++ "\">" ++
        summ ++ "</p>\n        <hr>\n        " ++ detailsHtml ++
        "\n        <p class=\"text-muted small\">Report generated: " ++ now ++ "</p>\n    ")

/-- `handleUrlScan(event)` (lines 139-184).  Returns the new state and
the number of network calls issued.  Preconditions (truthy session id,
non-empty URL) abort before any fetch with a local alert.  Otherwise
the scanning placeholder is written synchronously, then: success
renders the result and clears the input; a render throw, a rejected
fetch or an unparseable body all land in `catch` (placeholder replaced
by the connectivity message, input left populated); non-2xx writes the
inline failure message. -/
def handleUrlScan (net : NetResult ScanBody) (now : String) (s : ClientState) :
    ClientState × Nat :=
  if !sessionTruthy s.userId then (addAlert s "You must be logged in to perform a scan.", 0)
  else if s.urlInput = "" then (addAlert s "Please enter a URL to scan.", 0)
  else
    let s1 := { s with scanResultHtml := some scanningMsg }
    match net with
    | .noResponse => ({ s1 with scanResultHtml := some scanConnMsg }, 1)
    | .badJson _ => ({ s1 with scanResultHtml := some scanConnMsg }, 1)
    | .response ok body =>
      if ok then
        match displayScanResult body now with
        | some html => ({ s1 with scanResultHtml := some html, urlInput := "" }, 1)
        | none => ({ s1 with scanResultHtml := some scanConnMsg }, 1)
      else ({ s1 with scanResultHtml := some (scanFailMsg body.detail) }, 1)

/-- The `DOMContentLoaded` initial view setup (lines 242-246). -/
def initOnLoad (s : ClientState) : ClientState :=
  if sessionTruthy s.userId then showView "dashboard-view" s
  else showView "home-view" s

/-- The state of a freshly loaded page with no prior session. -/
def initState : ClientState :=
  { userId := none, userEmail := none, visible := ["home-view"], welcome := none,
    alerts := [], scanResultHtml := none, urlInput := "" }

/-! Helper lemmas shared by the claim theorems. -/

theorem toDigitsCore_ne_nil (b : Nat) : ∀ (fuel n : Nat) (ds : List Char), ds ≠ [] →
    Nat.toDigitsCore b fuel n ds ≠ [] := by
  intro fuel
  induction fuel with
  | zero => intro n ds h; simpa [Nat.toDigitsCore] using h
  | succ f ih =>
    intro n ds h
    unfold Nat.toDigitsCore
    dsimp only
    split
    · simp
    · exact ih _ _ (by simp)

theorem toDigits_ne_nil (b n : Nat) : Nat.toDigits b n ≠ [] := by
  unfold Nat.toDigits
  unfold Nat.toDigitsCore
  dsimp only
  split
  · simp
  · exact toDigitsCore_ne_nil b _ _ _ (by simp)

theorem natRepr_ne_empty (n : Nat) : Nat.repr n ≠ "" := by
  unfold Nat.repr
  intro h
  have h2 := congrArg String.data h
  simp only [List.asString] at h2
  exact toDigits_ne_nil 10 n h2

/-- JavaScript stringification of an integer is never the empty string,
so a stored numeric user id always passes the truthiness check. -/
theorem intToString_ne_empty (n : Int) : toString n ≠ "" := by
  cases n with
  | ofNat m => exact natRepr_ne_empty m
  | negSucc m =>
    show "-" ++ Nat.repr (m + 1) ≠ ""
    intro h
    have h2 := congrArg String.data h
    rw [String.data_append] at h2
    simp at h2

theorem showView_visible (v : String) (s : ClientState) (hc : viewIds.contains v = true) :
    (showView v s).visible = [v] := by
  unfold showView
  dsimp only
  split
  · split
    · split <;> simp [hc]
    · simp [hc]
  · simp [hc]

theorem showView_fields (v : String) (s : ClientState) :
    (showView v s).userId = s.userId ∧ (showView v s).userEmail = s.userEmail ∧
    (showView v s).alerts = s.alerts ∧ (showView v s).scanResultHtml = s.scanResultHtml ∧
    (showView v s).urlInput = s.urlInput := by
  unfold showView
  dsimp only
  split
  · split
    · split <;> simp
    · simp
  · simp

theorem strIncludes_iff (s sub : String) :
    strIncludes s sub = true ↔ sub.data <:+: s.data := by
  unfold strIncludes
  rw [List.any_eq_true]
  constructor
  · rintro ⟨t, ht, hp⟩
    rw [List.mem_tails] at ht
    rw [List.isPrefixOf_iff_prefix] at hp
    exact List.infix_iff_prefix_suffix.mpr ⟨t, hp, ht⟩
  · intro h
    obtain ⟨t, hp, ht⟩ := List.infix_iff_prefix_suffix.mp h
    exact ⟨t, (List.mem_tails _ _).mpr ht, List.isPrefixOf_iff_prefix.mpr hp⟩

/-! Claim theorems. -/

/-- C8: after every call to `handleSignOut` (the spec's `signOut`),
both session keys are absent, a synchronous notification has been
issued, and the visible view is home. -/
theorem signOut_clears_session_notifies_goes_home (s : ClientState) :
    (handleSignOut s).userId = none ∧ (handleSignOut s).userEmail = none ∧
    (handleSignOut s).alerts = s.alerts ++ ["You have been signed out."] ∧
    (handleSignOut s).visible = ["home-view"] := by
  obtain ⟨h1, h2, h3, _, _⟩ := showView_fields "home-view"
    (addAlert { s with userId := none, userEmail := none } "You have been signed out.")
  exact ⟨h1, h2, h3, showView_visible _ _ (by decide)⟩

/-- C2: `goToDashboard` shows the dashboard view iff `currentUserId` is
present beforehand, and shows the login view when it is absent.  The
hypothesis excludes the value `some ""`, which no spec-level session
can hold: the stored id is the stringification of a response field,
and stringified integers (`intToString_ne_empty`) as well as
`"undefined"` are non-empty. -/
theorem goToDashboard_iff_authenticated (s : ClientState) (h : s.userId ≠ some "") :
    ((goToDashboard s).visible = ["dashboard-view"] ↔ s.userId.isSome = true) ∧
    (s.userId = none → (goToDashboard s).visible = ["login-view"]) := by
  cases hu : s.userId with
  | none =>
    have hf : sessionTruthy s.userId = false := by rw [hu]; rfl
    have hv : (goToDashboard s).visible = ["login-view"] := by
      rw [goToDashboard, hf]
      exact showView_visible "login-view" s (by decide)
    constructor
    · rw [hv]
      simp
    · intro _; exact hv
  | some v =>
    have hvne : v ≠ "" := fun e => h (by rw [hu, e])
    have ht : sessionTruthy s.userId = true := by
      rw [hu]
      simp [sessionTruthy, hvne]
    have hv : (goToDashboard s).visible = ["dashboard-view"] := by
      rw [goToDashboard, ht]
      exact showView_visible "dashboard-view" s (by decide)
    constructor
    · rw [hv]
      simp
    · intro hn
      exact absurd hn (by simp)

/-- Witness for C2 at a concrete authenticated state. -/
theorem goToDashboard_iff_authenticated_witness :
    ((goToDashboard { initState with userId := some "7" }).visible = ["dashboard-view"] ↔
      ({ initState with userId := some "7" } : ClientState).userId.isSome = true) ∧
    (({ initState with userId := some "7" } : ClientState).userId = none →
      (goToDashboard { initState with userId := some "7" }).visible = ["login-view"]) :=
  goToDashboard_iff_authenticated { initState with userId := some "7" } (by decide)

/-- C6: after any sequence of `showView` calls (the spec's
`navigateTo`) ending with `showView v` for a view identifier `v`,
exactly one view element is visible, and it is `v`. -/
theorem navigateTo_unique_visible (s : ClientState) (prior : List String) (v : String)
    (hv : v ∈ viewIds) :
    (showView v (prior.foldl (fun st u => showView u st) s)).visible = [v] ∧
    (showView v (prior.foldl (fun st u => showView u st) s)).visible.length = 1 := by
  have hc : viewIds.contains v = true := List.elem_iff.mpr hv
  have h1 := showView_visible v (prior.foldl (fun st u => showView u st) s) hc
  exact ⟨h1, by rw [h1]; rfl⟩

/-- Witness for C6: two navigations ending on the login view. -/
theorem navigateTo_unique_visible_witness :
    (showView "login-view" (["registration-view"].foldl (fun st u => showView u st) initState)).visible
        = ["login-view"] ∧
    (showView "login-view" (["registration-view"].foldl (fun st u => showView u st) initState)).visible.length
        = 1 :=
  navigateTo_unique_visible initState ["registration-view"] "login-view" (by decide)

/-- C9: a 2xx login response whose JSON body lacks `id` and `email`
still authenticates the session: `sessionStorage.setItem` coerces
`undefined` to the non-empty string `"undefined"`, which passes the
truthiness test, so `goToDashboard` shows the dashboard. -/
theorem login_undefined_id_still_authenticates (s : ClientState) (d : Option String) :
    (handleLogin (NetResult.response true (LoginBody.mk JsValue.undef JsValue.undef d)) s).userId
        = some "undefined" ∧
    sessionTruthy (handleLogin (NetResult.response true
        (LoginBody.mk JsValue.undef JsValue.undef d)) s).userId = true ∧
    (handleLogin (NetResult.response true (LoginBody.mk JsValue.undef JsValue.undef d)) s).visible
        = ["dashboard-view"] := by
  have e : handleLogin (NetResult.response true (LoginBody.mk JsValue.undef JsValue.undef d)) s
      = showView "dashboard-view" { addAlert s loginSuccessMsg with
          userId := some "undefined", userEmail := some "undefined" } := rfl
  rw [e]
  obtain ⟨h1, _, _, _, _⟩ := showView_fields "dashboard-view"
    { addAlert s loginSuccessMsg with
        userId := some "undefined", userEmail := some "undefined" }
  refine ⟨h1, by rw [h1]; rfl, showView_visible _ _ (by decide)⟩

/-- C1: a 2xx login response (with the contract's numeric `id`) sets
both session keys from the response fields and shows the dashboard via
`goToDashboard`; a non-2xx response leaves the whole client state
unchanged except for one notification, built from the gateway `detail`
when that is a non-empty string and a generic fallback otherwise. -/
theorem login_success_sets_session_failure_leaves_it (s : ClientState) (n : Int)
    (e : JsValue) (d : Option String) (b : LoginBody) :
    ((handleLogin (NetResult.response true (LoginBody.mk (JsValue.num n) e d)) s).userId
        = some (toString n) ∧
     (handleLogin (NetResult.response true (LoginBody.mk (JsValue.num n) e d)) s).userEmail
        = some (jsToString e) ∧
     (handleLogin (NetResult.response true (LoginBody.mk (JsValue.num n) e d)) s).visible
        = ["dashboard-view"]) ∧
    ((handleLogin (NetResult.response false b) s).userId = s.userId ∧
     (handleLogin (NetResult.response false b) s).userEmail = s.userEmail ∧
     (handleLogin (NetResult.response false b) s).visible = s.visible ∧
     (handleLogin (NetResult.response false b) s).welcome = s.welcome ∧
     (handleLogin (NetResult.response false b) s).scanResultHtml = s.scanResultHtml ∧
     (handleLogin (NetResult.response false b) s).urlInput = s.urlInput ∧
     (handleLogin (NetResult.response false b) s).alerts
        = s.alerts ++ [loginFailMsg b.detail]) ∧
    (∀ dd : String, dd ≠ "" → loginFailMsg (some dd) = "Login failed: " ++ dd) ∧
    (loginFailMsg none = "Login failed: Invalid email or user not found.") := by
  refine ⟨?_, ⟨rfl, rfl, rfl, rfl, rfl, rfl, rfl⟩, ?_, rfl⟩
  · have e1 : handleLogin (NetResult.response true (LoginBody.mk (JsValue.num n) e d)) s
        = goToDashboard { addAlert s loginSuccessMsg with
            userId := some (toString n), userEmail := some (jsToString e) } := rfl
    have ht : sessionTruthy ({ addAlert s loginSuccessMsg with
        userId := some (toString n), userEmail := some (jsToString e) } : ClientState).userId
        = true := by
      simp [sessionTruthy, bne_iff_ne, intToString_ne_empty n]
    have e2 : handleLogin (NetResult.response true (LoginBody.mk (JsValue.num n) e d)) s
        = showView "dashboard-view" { addAlert s loginSuccessMsg with
            userId := some (toString n), userEmail := some (jsToString e) } := by
      rw [e1, goToDashboard, ht]
      rfl
    rw [e2]
    obtain ⟨h1, h2, _, _, _⟩ := showView_fields "dashboard-view"
      { addAlert s loginSuccessMsg with
          userId := some (toString n), userEmail := some (jsToString e) }
    exact ⟨h1, h2, showView_visible _ _ (by decide)⟩
  · intro dd hdd
    simp [loginFailMsg, orElseStr, hdd]

/-- Witness for C1: the spec's own example, id 7. -/
theorem login_success_sets_session_failure_leaves_it_witness :
    (handleLogin (NetResult.response true
        (LoginBody.mk (JsValue.num 7) (JsValue.str "a@b.com") none)) initState).userId
        = some (toString (7 : Int)) ∧
    (handleLogin (NetResult.response true
        (LoginBody.mk (JsValue.num 7) (JsValue.str "a@b.com") none)) initState).visible
        = ["dashboard-view"] ∧
    loginFailMsg (some "boom") = "Login failed: boom" := by
  have h := login_success_sets_session_failure_leaves_it initState 7 (JsValue.str "a@b.com")
    none (LoginBody.mk JsValue.undef JsValue.undef none)
  exact ⟨h.1.1, h.1.2.2, h.2.2.1 "boom" (by decide)⟩

/-- Both session keys are untouched by `handleUrlScan` in every branch. -/
theorem handleUrlScan_session (net : NetResult ScanBody) (now : String) (s : ClientState) :
    (handleUrlScan net now s).1.userId = s.userId ∧
    (handleUrlScan net now s).1.userEmail = s.userEmail := by
  unfold handleUrlScan
  repeat' split
  all_goals exact ⟨rfl, rfl⟩

/-- The invariant of C3: `currentUserId` and `currentUserEmail` are
either both set or both absent. -/
def sessionPaired (s : ClientState) : Prop :=
  s.userId.isSome = s.userEmail.isSome

/-- C3: every operation of the controller preserves the invariant that
the two session keys are set or cleared together. -/
theorem session_fields_set_or_cleared_together (s : ClientState) (v : String)
    (rnet : NetResult RegBody) (lnet : NetResult LoginBody) (snet : NetResult ScanBody)
    (now : String) (h : sessionPaired s) :
    sessionPaired (showView v s) ∧ sessionPaired (goToDashboard s) ∧
    sessionPaired (handleSignOut s) ∧ sessionPaired (handleRegistration rnet s) ∧
    sessionPaired (handleLogin lnet s) ∧ sessionPaired ((handleUrlScan snet now s).1) ∧
    sessionPaired (initOnLoad s) := by
  have hsv : ∀ (w : String) (t : ClientState), sessionPaired t → sessionPaired (showView w t) := by
    intro w t ht
    obtain ⟨h1, h2, _, _, _⟩ := showView_fields w t
    unfold sessionPaired
    rw [h1, h2]
    exact ht
  have hgd : ∀ (t : ClientState), sessionPaired t → sessionPaired (goToDashboard t) := by
    intro t ht
    unfold goToDashboard
    split
    · exact hsv _ _ ht
    · exact hsv _ _ ht
  refine ⟨hsv v s h, hgd s h, ?_, ?_, ?_, ?_, ?_⟩
  · show sessionPaired (showView "home-view"
      (addAlert { s with userId := none, userEmail := none } "You have been signed out."))
    exact hsv _ _ rfl
  · cases rnet with
    | noResponse => exact h
    | badJson ok => exact h
    | response ok body =>
      unfold handleRegistration
      dsimp only
      split
      · exact hsv _ _ h
      · exact h
  · cases lnet with
    | noResponse => exact h
    | badJson ok => exact h
    | response ok body =>
      unfold handleLogin
      dsimp only
      split
      · exact hgd _ rfl
      · exact h
  · obtain ⟨h1, h2⟩ := handleUrlScan_session snet now s
    unfold sessionPaired
    rw [h1, h2]
    exact h
  · unfold initOnLoad
    split
    · exact hsv _ _ h
    · exact hsv _ _ h

/-- Witness for C3 at the freshly loaded state. -/
theorem session_fields_set_or_cleared_together_witness :
    sessionPaired (handleSignOut initState) ∧
    sessionPaired (handleLogin (NetResult.response true
        (LoginBody.mk (JsValue.num 7) (JsValue.str "a@b.com") none)) initState) :=
  ⟨(session_fields_set_or_cleared_together initState "home-view"
      (NetResult.noResponse : NetResult RegBody)
      (NetResult.response true (LoginBody.mk (JsValue.num 7) (JsValue.str "a@b.com") none))
      (NetResult.noResponse : NetResult ScanBody) "t" rfl).2.2.1,
   (session_fields_set_or_cleared_together initState "home-view"
      (NetResult.noResponse : NetResult RegBody)
      (NetResult.response true (LoginBody.mk (JsValue.num 7) (JsValue.str "a@b.com") none))
      (NetResult.noResponse : NetResult ScanBody) "t" rfl).2.2.2.2.1⟩

/-- C4: a scan submission without a truthy session id or with an empty
URL input issues no network call and changes nothing but the alert
log, to which it appends exactly one local notification. -/
theorem scan_precondition_aborts_locally (s : ClientState) (net : NetResult ScanBody)
    (now : String) (h : s.userId = none ∨ s.urlInput = "") :
    (handleUrlScan net now s).2 = 0 ∧
    (handleUrlScan net now s).1.userId = s.userId ∧
    (handleUrlScan net now s).1.userEmail = s.userEmail ∧
    (handleUrlScan net now s).1.visible = s.visible ∧
    (handleUrlScan net now s).1.welcome = s.welcome ∧
    (handleUrlScan net now s).1.scanResultHtml = s.scanResultHtml ∧
    (handleUrlScan net now s).1.urlInput = s.urlInput ∧
    ((handleUrlScan net now s).1.alerts
        = s.alerts ++ ["You must be logged in to perform a scan."] ∨
     (handleUrlScan net now s).1.alerts = s.alerts ++ ["Please enter a URL to scan."]) := by
  by_cases h1 : sessionTruthy s.userId = true
  · have hu : s.urlInput = "" := by
      cases h with
      | inl hn => rw [hn] at h1; exact absurd h1 (by simp [sessionTruthy])
      | inr he => exact he
    have e : handleUrlScan net now s = (addAlert s "Please enter a URL to scan.", 0) := by
      unfold handleUrlScan
      simp [h1, hu]
    rw [e]
    exact ⟨rfl, rfl, rfl, rfl, rfl, rfl, rfl, Or.inr rfl⟩
  · have e : handleUrlScan net now s
        = (addAlert s "You must be logged in to perform a scan.", 0) := by
      unfold handleUrlScan
      simp [h1]
    rw [e]
    exact ⟨rfl, rfl, rfl, rfl, rfl, rfl, rfl, Or.inl rfl⟩

/-- Witness for C4: scan attempt on the freshly loaded state. -/
theorem scan_precondition_aborts_locally_witness :
    (handleUrlScan (NetResult.noResponse : NetResult ScanBody) "t" initState).2 = 0 ∧
    ((handleUrlScan (NetResult.noResponse : NetResult ScanBody) "t" initState).1.alerts
        = initState.alerts ++ ["You must be logged in to perform a scan."] ∨
     (handleUrlScan (NetResult.noResponse : NetResult ScanBody) "t" initState).1.alerts
        = initState.alerts ++ ["Please enter a URL to scan."]) :=
  ⟨(scan_precondition_aborts_locally initState NetResult.noResponse "t" (Or.inl rfl)).1,
   (scan_precondition_aborts_locally initState NetResult.noResponse "t" (Or.inl rfl)).2.2.2.2.2.2.2⟩

/-- C5: the status class is derived purely from the overall summary by
substring matching: a summary containing `"DANGER"` (even together
with `"WARNING"`) gets the danger class, otherwise one containing
`"WARNING"` gets the warning class, otherwise the success class; and
the chosen class is embedded in the markup `displayScanResult`
produces. -/
theorem statusClass_by_substring (summ : String) :
    (("DANGER".data <:+: summ.data) → statusClassOf summ = "text-danger") ∧
    (¬ ("DANGER".data <:+: summ.data) → ("WARNING".data <:+: summ.data) →
      statusClassOf summ = "text-warning") ∧
    (¬ ("DANGER".data <:+: summ.data) → ¬ ("WARNING".data <:+: summ.data) →
      statusClassOf summ = "text-success") ∧
    (∀ (u : String) (det : ScanDetails) (d : Option String) (now : String),
      ∃ h, displayScanResult (ScanBody.mk u (some summ) (some det) d) now = some h ∧
        (statusClassOf summ).data <:+: h.data) := by
  have hD := strIncludes_iff summ "DANGER"
  have hW := strIncludes_iff summ "WARNING"
  refine ⟨?_, ?_, ?_, ?_⟩
  · intro h
    unfold statusClassOf
    rw [hD.mpr h]
    rfl
  · intro hnd hw
    have hDf : strIncludes summ "DANGER" = false := Bool.eq_false_iff.mpr fun hc => hnd (hD.mp hc)
    unfold statusClassOf
    rw [hDf, hW.mpr hw]
    rfl
  · intro hnd hnw
    have hDf : strIncludes summ "DANGER" = false := Bool.eq_false_iff.mpr fun hc => hnd (hD.mp hc)
    have hWf : strIncludes summ "WARNING" = false := Bool.eq_false_iff.mpr fun hc => hnw (hW.mp hc)
    unfold statusClassOf
    rw [hDf, hWf]
    rfl
  · intro u det d now
    refine ⟨_, rfl, ?_⟩
    simp only [String.data_append, List.append_assoc]
    exact List.infix_iff_prefix_suffix.mpr ⟨_, List.prefix_append _ _, List.suffix_append _ _⟩

/-- Witness for C5 on three concrete summaries, including one carrying
both markers. -/
theorem statusClass_by_substring_witness :
    statusClassOf "DANGER and WARNING seen" = "text-danger" ∧
    statusClassOf "WARNING only" = "text-warning" ∧
    statusClassOf "all clear" = "text-success" :=
  ⟨(statusClass_by_substring "DANGER and WARNING seen").1 (by decide),
   (statusClass_by_substring "WARNING only").2.1 (by decide) (by decide),
   (statusClass_by_substring "all clear").2.2.1 (by decide) (by decide)⟩

/-- C10: `displayScanResult` renders exactly the bodies carrying both
`overall_summary` and `details`; for a 2xx scan response missing
either, the render throws, `handleUrlScan` reaches its catch branch
(writing the connectivity message into the result area), and the URL
input is not cleared. -/
theorem render_requires_summary_and_details (b : ScanBody) (now : String) (s : ClientState)
    (hs : sessionTruthy s.userId = true) (hu : s.urlInput ≠ "") :
    ((b.overall_summary = none ∨ b.details = none) → displayScanResult b now = none) ∧
    (∀ summ det, b.overall_summary = some summ → b.details = some det →
      ∃ h, displayScanResult b now = some h) ∧
    ((b.overall_summary = none ∨ b.details = none) →
      (handleUrlScan (NetResult.response true b) now s).1.scanResultHtml = some scanConnMsg ∧
      (handleUrlScan (NetResult.response true b) now s).1.urlInput = s.urlInput) := by
  obtain ⟨u, os, od, dd⟩ := b
  have hnone : (os = none ∨ od = none) →
      displayScanResult (ScanBody.mk u os od dd) now = none := by
    rintro (h | h)
    · subst h
      rfl
    · subst h
      cases os with
      | none => rfl
      | some summ => rfl
  refine ⟨fun h => hnone (by simpa using h), ?_, ?_⟩
  · intro summ det h1 h2
    dsimp only at h1 h2
    subst h1
    subst h2
    exact ⟨_, rfl⟩
  · intro h
    have hr := hnone (by simpa using h)
    constructor
    · unfold handleUrlScan
      simp [hs, hu, hr]
    · unfold handleUrlScan
      simp [hs, hu, hr]

/-- Witness for C10: a 2xx body with no summary and no details, at an
authenticated state with a populated input. -/
theorem render_requires_summary_and_details_witness :
    displayScanResult (ScanBody.mk "http://x" none none none) "t" = none ∧
    (handleUrlScan (NetResult.response true (ScanBody.mk "http://x" none none none)) "t"
        { initState with userId := some "7", urlInput := "http://x" }).1.scanResultHtml
      = some scanConnMsg ∧
    (handleUrlScan (NetResult.response true (ScanBody.mk "http://x" none none none)) "t"
        { initState with userId := some "7", urlInput := "http://x" }).1.urlInput
      = ({ initState with userId := some "7", urlInput := "http://x" } : ClientState).urlInput := by
  have h := render_requires_summary_and_details (ScanBody.mk "http://x" none none none) "t"
    { initState with userId := some "7", urlInput := "http://x" } (by decide) (by decide)
  exact ⟨h.1 (Or.inl rfl), (h.2.2 (Or.inl rfl)).1, (h.2.2 (Or.inl rfl)).2⟩

/-- Whether the `try` block of an alert-based handler (register, login)
throws: exactly when the fetch promise rejects or the response body
fails to parse as JSON. -/
def tryThrew {β : Type} : NetResult β → Bool
  | .noResponse => true
  | .badJson _ => true
  | .response _ _ => false

/-- Whether the scan handler's `try` block throws: as `tryThrew`, plus
the case of a 2xx body whose rendering throws inside
`displayScanResult`. -/
def scanTryThrew (net : NetResult ScanBody) (now : String) : Bool :=
  match net with
  | .noResponse => true
  | .badJson _ => true
  | .response ok body => ok && (displayScanResult body now).isNone

theorem goToDashboard_alerts (t : ClientState) : (goToDashboard t).alerts = t.alerts := by
  unfold goToDashboard
  split
  · exact (showView_fields _ _).2.2.1
  · exact (showView_fields _ _).2.2.1

theorem regFailMsg_head (d : Option String) : (regFailMsg d).data.head? = some 'R' := by
  unfold regFailMsg
  rw [String.data_append, List.head?_append]
  rfl

theorem loginFailMsg_head (d : Option String) : (loginFailMsg d).data.head? = some 'L' := by
  unfold loginFailMsg
  rw [String.data_append, List.head?_append]
  rfl

theorem regConnMsg_ne_fail (d : Option String) : regConnMsg ≠ regFailMsg d := by
  intro h
  have h2 : regConnMsg.data.head? = (regFailMsg d).data.head? := by rw [h]
  rw [regFailMsg_head] at h2
  exact absurd h2 (by decide)

theorem loginConnMsg_ne_fail (d : Option String) : loginConnMsg ≠ loginFailMsg d := by
  intro h
  have h2 : loginConnMsg.data.head? = (loginFailMsg d).data.head? := by rw [h]
  rw [loginFailMsg_head] at h2
  exact absurd h2 (by decide)

theorem scanConnMsg_ne_fail (d : Option String) : scanConnMsg ≠ scanFailMsg d := by
  intro h
  have h2 : scanConnMsg.data = (scanFailMsg d).data := by rw [h]
  have e1 : scanConnMsg.data
      = "<p class=\"text-danger\">".data ++ "Failed to connect to API for scan.</p>".data := by
    decide
  have e2 : (scanFailMsg d).data
      = "<p class=\"text-danger\">".data ++ ("Scan failed: ".data
          ++ ((orElseStr d "Server error.").data ++ "</p>".data)) := by
    show (("<p class=\"text-danger\">Scan failed: " ++ orElseStr d "Server error.")
        ++ "</p>").data = _
    rw [String.data_append, String.data_append]
    have e3 : "<p class=\"text-danger\">Scan failed: ".data
        = "<p class=\"text-danger\">".data ++ "Scan failed: ".data := by decide
    rw [e3, List.append_assoc, List.append_assoc]
  rw [e1, e2] at h2
  have h3 := List.append_cancel_left h2
  have h4 : ("Failed to connect to API for scan.</p>".data).head?
      = ("Scan failed: ".data
          ++ ((orElseStr d "Server error.").data ++ "</p>".data)).head? := by rw [h3]
  have h5 : ("Scan failed: ".data
      ++ ((orElseStr d "Server error.").data ++ "</p>".data)).head? = some 'S' := by
    rw [List.head?_append]
    rfl
  rw [h5] at h4
  exact absurd h4 (by decide)

/-- A successfully rendered scan result always starts with the newline
of the template literal, so it is never the connectivity message. -/
theorem displayScanResult_head (b : ScanBody) (now h : String)
    (e : displayScanResult b now = some h) : h.data.head? = some '\n' := by
  obtain ⟨u, os, od, dd⟩ := b
  cases os with
  | none => exact absurd e (by simp [displayScanResult])
  | some summ =>
    cases od with
    | none => exact absurd e (by simp [displayScanResult])
    | some det =>
      have e2 : displayScanResult (ScanBody.mk u (some summ) (some det) dd) now
          = some ("\n        <h4 class=\"" ++ statusClassOf summ ++ "\">Scan Result for: " ++
            u ++ "</h4>\n        <p class=\"h5 " ++ statusClassOf summ ++ "\">" ++
            summ ++ "</p>\n        <hr>\n        " ++
            (vtHtml det.virustotal ++ gsbHtml det.google_safe_browsing) ++
            "\n        <p class=\"text-muted small\">Report generated: " ++ now ++
            "</p>\n    ") := rfl
      rw [e2] at e
      have e3 := Option.some.inj e
      rw [← e3]
      simp only [String.data_append, List.append_assoc]
      rw [List.head?_append]
      rfl

/-- C7 counterexample: a 2xx response whose body is not parseable JSON
makes `await response.json()` throw inside the `try` block, so the
generic connectivity alert is produced even though a response was
obtained — the connectivity message is not produced exactly when no
response was obtained. -/
theorem connectivity_message_despite_response :
    responseObtained (NetResult.badJson true : NetResult RegBody) = true ∧
    (handleRegistration (NetResult.badJson true) initState).alerts = [regConnMsg] :=
  ⟨rfl, rfl⟩

/-- C7 amended: for each of the three handlers, a transport failure is
reported with the generic connectivity message, that message is
distinct from every application-rejection message, and the
connectivity message is produced exactly when the handler's `try`
block threw: no response was obtained, the body was not parseable
JSON, or (scan only) rendering of a 2xx body threw. -/
theorem connectivity_iff_try_threw (s : ClientState) (rnet : NetResult RegBody)
    (lnet : NetResult LoginBody) (snet : NetResult ScanBody) (now : String)
    (hs : sessionTruthy s.userId = true) (hu : s.urlInput ≠ "") :
    ((handleRegistration rnet s).alerts = s.alerts ++ [regConnMsg] ↔ tryThrew rnet = true) ∧
    (∀ d, regConnMsg ≠ regFailMsg d) ∧
    ((handleLogin lnet s).alerts = s.alerts ++ [loginConnMsg] ↔ tryThrew lnet = true) ∧
    (∀ d, loginConnMsg ≠ loginFailMsg d) ∧
    ((handleUrlScan snet now s).1.scanResultHtml = some scanConnMsg ↔
        scanTryThrew snet now = true) ∧
    (∀ d, scanConnMsg ≠ scanFailMsg d) := by
  refine ⟨?_, regConnMsg_ne_fail, ?_, loginConnMsg_ne_fail, ?_, scanConnMsg_ne_fail⟩
  · cases rnet with
    | noResponse => simp [handleRegistration, addAlert, tryThrew]
    | badJson ok => simp [handleRegistration, addAlert, tryThrew]
    | response ok body =>
      cases ok with
      | true =>
        have ha : (handleRegistration (NetResult.response true body) s).alerts
            = s.alerts ++ [regSuccessMsg] :=
          (showView_fields "login-view" (addAlert s regSuccessMsg)).2.2.1
        rw [ha]
        constructor
        · intro h
          have h2 := List.append_cancel_left h
          have h3 : regSuccessMsg = regConnMsg := by
            injection h2
          exact absurd h3 (by decide)
        · intro h
          exact absurd h (by simp [tryThrew])
      | false =>
        constructor
        · intro h
          have h2 : s.alerts ++ [regFailMsg body.detail] = s.alerts ++ [regConnMsg] := h
          have h3 := List.append_cancel_left h2
          have h4 : regFailMsg body.detail = regConnMsg := by
            injection h3
          exact absurd h4.symm (regConnMsg_ne_fail body.detail)
        · intro h
          exact absurd h (by simp [tryThrew])
  · cases lnet with
    | noResponse => simp [handleLogin, addAlert, tryThrew]
    | badJson ok => simp [handleLogin, addAlert, tryThrew]
    | response ok body =>
      cases ok with
      | true =>
        have ha : (handleLogin (NetResult.response true body) s).alerts
            = s.alerts ++ [loginSuccessMsg] :=
          goToDashboard_alerts { addAlert s loginSuccessMsg with
            userId := some (jsToString body.id), userEmail := some (jsToString body.email) }
        rw [ha]
        constructor
        · intro h
          have h2 := List.append_cancel_left h
          have h3 : loginSuccessMsg = loginConnMsg := by
            injection h2
          exact absurd h3 (by decide)
        · intro h
          exact absurd h (by simp [tryThrew])
      | false =>
        constructor
        · intro h
          have h2 : s.alerts ++ [loginFailMsg body.detail] = s.alerts ++ [loginConnMsg] := h
          have h3 := List.append_cancel_left h2
          have h4 : loginFailMsg body.detail = loginConnMsg := by
            injection h3
          exact absurd h4.symm (loginConnMsg_ne_fail body.detail)
        · intro h
          exact absurd h (by simp [tryThrew])
  · cases snet with
    | noResponse =>
      have e : (handleUrlScan (NetResult.noResponse : NetResult ScanBody) now s).1.scanResultHtml
          = some scanConnMsg := by
        unfold handleUrlScan
        simp [hs, hu]
      simp [e, scanTryThrew]
    | badJson ok =>
      have e : (handleUrlScan (NetResult.badJson ok : NetResult ScanBody) now s).1.scanResultHtml
          = some scanConnMsg := by
        unfold handleUrlScan
        simp [hs, hu]
      simp [e, scanTryThrew]
    | response ok body =>
      cases ok with
      | true =>
        cases hd : displayScanResult body now with
        | none =>
          have e : (handleUrlScan (NetResult.response true body) now s).1.scanResultHtml
              = some scanConnMsg := by
            unfold handleUrlScan
            simp [hs, hu, hd]
          simp [e, scanTryThrew, hd]
        | some html =>
          have e : (handleUrlScan (NetResult.response true body) now s).1.scanResultHtml
              = some html := by
            unfold handleUrlScan
            simp [hs, hu, hd]
          rw [e]
          constructor
          · intro h
            have hh := Option.some.inj h
            have hhead := displayScanResult_head body now html hd
            rw [hh] at hhead
            exact absurd hhead (by decide)
          · intro h
            simp [scanTryThrew, hd] at h
      | false =>
        have e : (handleUrlScan (NetResult.response false body) now s).1.scanResultHtml
            = some (scanFailMsg body.detail) := by
          unfold handleUrlScan
          simp [hs, hu]
        rw [e]
        constructor
        · intro h
          exact absurd (Option.some.inj h).symm (scanConnMsg_ne_fail body.detail)
        · intro h
          simp [scanTryThrew] at h

/-- Witness for the amended C7: a rejected fetch on each handler at a
concrete authenticated state. -/
theorem connectivity_iff_try_threw_witness :
    ((handleRegistration (NetResult.noResponse : NetResult RegBody)
        { initState with userId := some "7", urlInput := "http://x" }).alerts
      = ({ initState with userId := some "7", urlInput := "http://x" } : ClientState).alerts
          ++ [regConnMsg] ↔ tryThrew (NetResult.noResponse : NetResult RegBody) = true) ∧
    ((handleUrlScan (NetResult.noResponse : NetResult ScanBody) "t"
        { initState with userId := some "7", urlInput := "http://x" }).1.scanResultHtml
      = some scanConnMsg ↔
        scanTryThrew (NetResult.noResponse : NetResult ScanBody) "t" = true) ∧
    regConnMsg ≠ regFailMsg none := by
  have h := connectivity_iff_try_threw
    { initState with userId := some "7", urlInput := "http://x" }
    (NetResult.noResponse : NetResult RegBody)
    (NetResult.noResponse : NetResult LoginBody)
    (NetResult.noResponse : NetResult ScanBody) "t" (by decide) (by decide)
  exact ⟨h.1, h.2.2.2.2.1, h.2.1 none⟩
